import Mathlib

/-!
Verification development for the KIMaster_v2 game-session orchestration core.

The definitions below are a shallow embedding of the Python sources:

* `src/GameClient/game_client.py` — the per-connection protocol dispatcher
  (`GameClient.run`, `GameClient.handle_timeline`, `GameClient.parse_input`);
* `src/GameClient/arena.py` — the session main loop (`Arena.play`);
* `src/Games/tictactoe/TicTacToeGame.py` — the tic-tac-toe rule engine.

Python machine integers are modelled as `Int`, Python floats returned by
`getGameEnded` (only the values `0`, `1`, `-1`, `1e-4` occur) as `ℚ`,
exceptions as `Option`/explicit outcome constructors, and the cooperative
async loops as fuel-indexed recursion over a script of polled inputs.
-/

namespace KIM

/-- The protocol lifecycle states, from `Tools/game_states.py`
(`GAMESTATE.WAITING/RUNNING/FINISHED/EVALUATE`), as used by
`GameClient.run`. -/
inductive GAMESTATE
  | WAITING
  | RUNNING
  | FINISHED
  | EVALUATE
deriving DecidableEq, Repr, Fintype

/-- The inbound `command_key` values handled by `GameClient.run`. -/
inductive CommandKey
  | create
  | valid_moves
  | make_move
  | undo_move
  | surrender
  | quit
  | new_game
  | blunder
  | timeline
  | step
  | unstep
  | games
  | evaluate
  | stop_evaluate
deriving DecidableEq, Repr, Fintype

/-- The outbound response codes of `Tools/Response.py` that the embedded
fragments of `GameClient.run` emit.  `INITRESPONSE` stands for the
`Response` object returned by `Pit.init_game` (its payload is outside the
model), and `P_UNDORESULT` likewise for the response returned by
`Arena.undo_move`. -/
inductive R_CODE
  | P_NOINIT
  | P_STILLRUNNING
  | P_GAMEOVER
  | P_ARGS
  | P_GAMENOTAWAILABLE
  | INTERNALERROR
  | INITRESPONSE
  | P_NOMOVE
  | P_INVALIDMOVE
  | P_NOUNDO
  | P_INVALIDUNDO
  | P_UNDORESULT
  | P_SURRENDER
  | P_QUIT
  | P_NOEVALUATION
  | P_INVALIDEVALUATION
  | P_NOTIMELINE
  | P_INVALIDTIMELINE
  | P_TIMELINE
deriving DecidableEq, Repr

/-- The command gate of `GameClient.run` (game_client.py lines 102-122):
each protocol state filters `command_key` against a literal list; a key
outside the list draws an error response and a `continue`.  The source's
`match self.state` has arms for `WAITING`, `RUNNING` and `FINISHED` only —
in state `EVALUATE` no arm matches, so no command is filtered there. -/
def admissible : GAMESTATE → CommandKey → Bool
  | .WAITING, c =>
      c = .create ∨ c = .evaluate ∨ c = .quit ∨ c = .games
  | .RUNNING, c =>
      c = .valid_moves ∨ c = .make_move ∨ c = .undo_move ∨ c = .surrender ∨ c = .blunder
  | .FINISHED, c =>
      c = .new_game ∨ c = .timeline ∨ c = .step ∨ c = .unstep ∨ c = .blunder ∨
        c = .quit ∨ c = .create
  | .EVALUATE, _ => true

/-- The admissibility table of spec section 4.3, written from the spec's
words (for comparison with `admissible`, which is written from the code):
Waiting admits create/evaluate/quit/list-games, Running admits
query-valid-moves/make-move/undo/surrender/blunder, Finished admits
new-game/create/timeline/step/unstep/blunder/quit, Evaluating admits only
stop-evaluate. -/
def specAdmissible : GAMESTATE → CommandKey → Bool
  | .WAITING, c =>
      c = .create ∨ c = .evaluate ∨ c = .quit ∨ c = .games
  | .RUNNING, c =>
      c = .valid_moves ∨ c = .make_move ∨ c = .undo_move ∨ c = .surrender ∨ c = .blunder
  | .FINISHED, c =>
      c = .new_game ∨ c = .create ∨ c = .timeline ∨ c = .step ∨ c = .unstep ∨
        c = .blunder ∨ c = .quit
  | .EVALUATE, c => c = .stop_evaluate

/-- The error code the gate answers with in each state (game_client.py
lines 105, 111, 119).  The `EVALUATE` arm is never used, since
`admissible .EVALUATE` is constantly true. -/
def conflictCode : GAMESTATE → R_CODE
  | .WAITING => .P_NOINIT
  | .RUNNING => .P_STILLRUNNING
  | .FINISHED => .P_GAMEOVER
  | .EVALUATE => .P_NOINIT

/-- A value read from a field of the inbound JSON message: absent,
a string, or already an integer. -/
inductive FieldVal
  | missing
  | strVal (s : String)
  | intVal (n : Int)
deriving DecidableEq, Repr

/-- Model of Python `int(x)` on a string: optional surrounding whitespace,
an optional sign, then a nonempty digit run; anything else raises
`ValueError` (modelled as `none`). -/
def digitsVal : List Char → Option Nat
  | [] => none
  | cs =>
      if cs.all Char.isDigit then
        some (cs.foldl (fun a c => 10 * a + (c.toNat - 48)) 0)
      else
        none

def skipSpaces : List Char → List Char
  | c :: rest => if c = ' ' then skipSpaces rest else c :: rest
  | [] => []

/-- Python's whitespace strip around `int()` input (space characters are
the whitespace the model covers). -/
def pyStrip (cs : List Char) : List Char :=
  (skipSpaces ((skipSpaces cs).reverse)).reverse

def pyIntOfString (s : String) : Option Int :=
  match pyStrip s.toList with
  | '+' :: rest => (digitsVal rest).map Int.ofNat
  | '-' :: rest => (digitsVal rest).map (fun n => -(n : Int))
  | cs => (digitsVal cs).map Int.ofNat

/-- Python `int(num)` applied to a message field (`int` of an `int` is the
identity; `int` of a string parses it or raises `ValueError` = `none`). -/
def FieldVal.toInt : FieldVal → Option Int
  | .missing => none
  | .intVal n => some n
  | .strVal s => pyIntOfString s

/-- An inbound protocol message as far as the embedded dispatcher arms
inspect it.  `configOk` is the outcome of the `game_config()` validity
check made by `extract_game_config` plus call, `gameAvailable` the outcome
of `GameEnum.check_entry`, and `moveTerminal` records whether the move a
`make_move` command carries ends the game once applied (the effect of the
missing `Pit.set_move`, see `makeMoveNextState`). -/
structure Msg where
  key : CommandKey
  num : FieldVal
  move : FieldVal
  configOk : Bool
  gameAvailable : Bool
  moveTerminal : Bool
deriving DecidableEq, Repr

/-- The dispatcher-visible part of a `GameClient`: its protocol state and
the status of `self.pit` / `self.pit.arena_task`. -/
structure Client where
  state : GAMESTATE
  pitExists : Bool
  taskExists : Bool
  taskDone : Bool
deriving DecidableEq, Repr

/-- Side effects the dispatcher arms trigger on the session layer. -/
inductive Effect
  | stopPlay
  | arenaUndo (n : Int)
  | setMove
  | initGame (numGames : Int)
deriving DecidableEq, Repr

/-- Result of processing one inbound message: the updated client, the
responses sent, the session-layer effects, whether the command passed the
state gate and reached its dispatch arm, and whether an exception escaped
the handler. -/
structure StepOut where
  client : Client
  responses : List R_CODE
  effects : List Effect
  dispatched : Bool
  raised : Bool
deriving DecidableEq, Repr

/-- An early-`continue` inside a dispatch arm: an error response and no
state change. -/
def armReject (c : Client) (r : R_CODE) : StepOut :=
  { client := c, responses := [r], effects := [], dispatched := true, raised := false }

/-- Modelled from the spec: the protocol-state consequence of a
`make_move` whose applied move ends the game.  `Pit.set_move` and the
game-over callback are not under src/ (only their caller, the `make_move`
arm of `GameClient.run`, is); per spec section 4.3 a terminal move outcome
moves the protocol state to `Finished`, and a non-terminal one leaves it
`Running`. -/
def makeMoveNextState (cur : GAMESTATE) (terminal : Bool) : GAMESTATE :=
  if terminal then .FINISHED else cur

/-- The values `ast.literal_eval` may hand back to `parse_input` as far
as the dispatcher uses them: an integer action or a coordinate tuple.
Which value comes back never affects whether `parse_input` raises. -/
inductive PyVal
  | int (n : Int)
  | tuple (ts : List Int)
deriving DecidableEq, Repr

/-- The three ways a call to `ast.literal_eval` can end: a value, a
`ValueError` (a well-formed expression that is not a literal — caught by
`parse_input`), or a `SyntaxError` (text that does not parse — not
caught). -/
inductive EvalOut
  | ok (v : PyVal)
  | valErr
  | synErr
deriving DecidableEq, Repr

/-- Python `s.startswith("(")`: the first character is `(`. -/
def startsWithParen (s : String) : Bool :=
  match s.toList with
  | c :: _ => c = '('
  | [] => false

/-- Python `s.endswith(")")`: the last character is `)`. -/
def endsWithParen (s : String) : Bool :=
  match s.toList.getLast? with
  | some c => c = ')'
  | none => false

/-- The public input of `GameClient.parse_input`: `None`, an `int`, or a
string. -/
inductive PInput
  | noneInput
  | intInput (n : Int)
  | strInput (s : String)
deriving DecidableEq, Repr

/-- Either a returned value or an uncaught exception escaping
`parse_input`. -/
inductive ParseOut
  | ret (v : Option PyVal)
  | raises
deriving DecidableEq, Repr

/-- `GameClient.parse_input` (game_client.py lines 367-382) with
`ast.literal_eval` — Python-standard-library code outside this
repository — abstracted as an outcome oracle `ev`, in the same way the
external `Game` collaborator is abstracted as `GameM` below.  `None` and
`int` inputs are returned as-is; a string that starts with `(` and ends
with `)` goes through `literal_eval` with only `ValueError` caught (so a
`SyntaxError` escapes); any other string goes through `int()` with
`ValueError` caught. -/
def parse_input_gen (ev : String → EvalOut) : PInput → ParseOut
  | .noneInput => .ret none
  | .intInput n => .ret (some (.int n))
  | .strInput s =>
      if startsWithParen s && endsWithParen s then
        match ev s with
        | .ok v => .ret (some v)
        | .valErr => .ret none
        | .synErr => .raises
      else
        .ret ((pyIntOfString s).map PyVal.int)

/-- The recorded outcome of `ast.literal_eval` on the one string this
development evaluates it at concretely: in `"(1,])"` a `]` closes a `(`,
which Python's tokenizer rejects with `SyntaxError`.  No general model
of `literal_eval` is attempted — every general statement about
`parse_input` quantifies over the oracle instead (see
`C10_parse_input_characterised`) — and on all other strings this table
returns the placeholder `valErr`, on which nothing relies. -/
def literalEvalProbes (s : String) : EvalOut :=
  if s = "(1,])" then .synErr else .valErr

/-- `GameClient.parse_input` with the recorded `literal_eval` outcome
plugged in. -/
def parse_input : PInput → ParseOut :=
  parse_input_gen literalEvalProbes

/-- The dispatch arms of `GameClient.run` reached after the state gate,
for the commands whose behaviour the claims concern.  Arms that only read
(`valid_moves`, `blunder`, `timeline`, `step`, `unstep`, `games`, `quit`)
never assign `self.state`; their response payloads are outside the model.
-/
def dispatch (c : Client) (m : Msg) : StepOut :=
  match m.key with
  | .create =>
      if c.pitExists && c.taskExists && !c.taskDone then
        armReject c .P_STILLRUNNING
      else if !m.configOk then
        armReject c .P_ARGS
      else if !m.gameAvailable then
        armReject c .P_GAMENOTAWAILABLE
      else
        { client := { state := .RUNNING, pitExists := true, taskExists := true,
                      taskDone := false },
          responses := [.INITRESPONSE], effects := [.initGame 1],
          dispatched := true, raised := false }
  | .evaluate =>
      if c.pitExists && c.taskExists && !c.taskDone then
        armReject c .P_STILLRUNNING
      else
        match m.num with
        | .missing => armReject c .P_NOEVALUATION
        | fld =>
            match fld.toInt with
            | none => armReject c .P_INVALIDEVALUATION
            | some n =>
                if n = 1 ∨ n > 100 then
                  armReject c .P_INVALIDEVALUATION
                else if !m.configOk then
                  armReject c .P_ARGS
                else
                  { client := { state := .EVALUATE, pitExists := true,
                                taskExists := true, taskDone := false },
                    responses := [.INITRESPONSE], effects := [.initGame n],
                    dispatched := true, raised := false }
  | .undo_move =>
      match m.num with
      | .missing => armReject c .P_NOUNDO
      | fld =>
          match fld.toInt with
          | none => armReject c .P_INVALIDUNDO
          | some n =>
              if n ≤ 0 then
                armReject c .P_INVALIDUNDO
              else
                { client := { c with taskDone := true },
                  responses := [.P_UNDORESULT],
                  effects := (if !c.taskDone then [Effect.stopPlay] else []) ++
                    [Effect.arenaUndo n],
                  dispatched := true, raised := false }
  | .surrender =>
      { client := { c with state := .FINISHED, taskDone := true },
        responses := [.P_SURRENDER], effects := [.stopPlay],
        dispatched := true, raised := false }
  | .stop_evaluate =>
      { client := { c with state := .WAITING, taskDone := true },
        responses := [], effects := [.stopPlay],
        dispatched := true, raised := false }
  | .new_game =>
      if !c.taskDone then
        armReject c .P_STILLRUNNING
      else
        { client := { c with state := .RUNNING, taskDone := false },
          responses := [.INITRESPONSE], effects := [.initGame 1],
          dispatched := true, raised := false }
  | .make_move =>
      match m.move with
      | .missing => armReject c .P_NOMOVE
      | .intVal n =>
          (match parse_input (.intInput n) with
           | .ret none => armReject c .P_INVALIDMOVE
           | .ret (some _) =>
               { client := { c with state := makeMoveNextState c.state m.moveTerminal },
                 responses := [], effects := [.setMove],
                 dispatched := true, raised := false }
           | .raises =>
               { client := c, responses := [], effects := [],
                 dispatched := true, raised := true })
      | .strVal s =>
          (match parse_input (.strInput s) with
           | .ret none => armReject c .P_INVALIDMOVE
           | .ret (some _) =>
               { client := { c with state := makeMoveNextState c.state m.moveTerminal },
                 responses := [], effects := [.setMove],
                 dispatched := true, raised := false }
           | .raises =>
               { client := c, responses := [], effects := [],
                 dispatched := true, raised := true })
  | _ =>
      { client := c, responses := [], effects := [],
        dispatched := true, raised := false }

/-- One round of `GameClient.run` on an inbound message: the state gate
(rejecting with `conflictCode` and `continue` when the key is not
admissible) followed by the dispatch arm. -/
def clientStep (c : Client) (m : Msg) : StepOut :=
  if admissible c.state m.key then
    dispatch c m
  else
    { client := c, responses := [conflictCode c.state], effects := [],
      dispatched := false, raised := false }

/-! ### Tic-tac-toe rule engine

From `src/Games/tictactoe/TicTacToeGame.py` (the copy under
`src/GameClient/Games/tictactoe/` has the same logic).  The `Board`
helper class lives in `TicTacToeLogic.py`, which is not under src/, so
its three methods are modelled from the spec. -/

/-- A 3x3 board in row-major order; `1` and `-1` are the players' pieces
and `0` an empty cell. -/
abbrev TBoard := List Int

/-- All three cells of one line hold the given player's piece. -/
def triple (b : TBoard) (p : Int) (i j k : Nat) : Bool :=
  b.getD i 0 = p ∧ b.getD j 0 = p ∧ b.getD k 0 = p

/-- Modelled from the spec: `TicTacToeLogic.Board.is_win` —
"a board with three in a row" for the given player, over the three rows,
three columns and two diagonals (`TicTacToeLogic.py` is not under src/;
only its caller `TicTacToeGame` is). -/
def is_win (b : TBoard) (p : Int) : Bool :=
  triple b p 0 1 2 ∨ triple b p 3 4 5 ∨ triple b p 6 7 8 ∨
  triple b p 0 3 6 ∨ triple b p 1 4 7 ∨ triple b p 2 5 8 ∨
  triple b p 0 4 8 ∨ triple b p 2 4 6

/-- Modelled from the spec: `TicTacToeLogic.Board.has_legal_moves` —
some cell of the board is still empty ("board full" is its negation). -/
def has_legal_moves (b : TBoard) : Bool := b.contains 0

/-- `TicTacToeGame.getGameEnded` (TicTacToeGame.py lines 57-69): `1` if
`player` has won, `-1` if the opponent has won, `0` while legal moves
remain, and the small non-zero draw value `1e-4` otherwise. -/
def getGameEnded (b : TBoard) (player : Int) : ℚ :=
  if is_win b player then 1
  else if is_win b (-player) then -1
  else if has_legal_moves b then 0
  else 1 / 10000

/-- `TicTacToeGame.getNextState`: action `9` (= `n*n`) passes the turn;
otherwise the piece is placed on the chosen cell.  The occupied-cell
check (raising `ValueError`, modelled as `none`) is modelled from the
spec's invalid-move detection, since `Board.execute_move` is not under
src/. -/
def getNextState (b : TBoard) (player : Int) (action : Nat) :
    Option (TBoard × Int) :=
  if action = 9 then some (b, -player)
  else if b.getD action 1 = 0 then some (b.set action player, -player)
  else none

/-! ### Session main loop

From `src/GameClient/arena.py`, `Arena.play` (lines 41-101) together with
`Arena.set_arena` (lines 28-36).  The cooperative async loop is embedded
as fuel-indexed recursion; the values successively returned by the active
player's poll function `p()` form a script (`None`, a boolean AI-move
request, or an action).  Broadcast messages announcing whose turn it is
are outside the model; the per-move responses (`P_VALIDMOVE`,
`P_INVALIDMOVE`, `P_GAMEOVER`) are recorded in a log. -/

/-- The abstract rule engine `Arena.play` drives (the `IGame` interface):
initial board, successor state (with `none` for the `ValueError` raised on
an illegal action), and terminal outcome. -/
structure GameM (β : Type) where
  getInit : β
  getNextState : β → Int → Nat → Option (β × Int)
  getGameEnded : β → Int → ℚ

/-- The tic-tac-toe instance of the rule engine. -/
def ticTacToeGame : GameM TBoard :=
  { getInit := List.replicate 9 0
    getNextState := getNextState
    getGameEnded := getGameEnded }

/-- `p1`/`p2` as used in the `to` field of responses. -/
inductive Pos
  | p1
  | p2
deriving DecidableEq, Repr

def toPos (cur : Int) : Pos := if cur = 1 then .p1 else .p2

/-- The arena-side response codes of `Tools/rcode.py` emitted by
`Arena.play`. -/
inductive RCODE
  | P_VALIDMOVE
  | P_INVALIDMOVE
  | P_GAMEOVER
deriving DecidableEq, Repr

/-- A value returned by one poll of the active player source:
no action yet (`None`), an AI-move request (a `bool`), or an action. -/
inductive PAction
  | noMove
  | aiRequest
  | move (a : Nat)
deriving DecidableEq, Repr

/-- The mutable state of an `Arena` during `play`: current board and
player, the ply counter `it`, the history and blunder-history lists, and
the log of responses sent. -/
structure ArenaSt (β : Type) where
  board : β
  curPlayer : Int
  it : Nat
  history : List (β × Int × Nat)
  blunderHistory : List (β × Int × Nat × Nat)
  log : List (RCODE × Option Pos)
deriving DecidableEq, Repr

/-- The arena state at the start of `play` on a fresh configuration:
`set_arena` clears history and blunder history, `play` starts from the
initial board with `cur_player = 1` and `it = 0`. -/
def initArena (g : GameM β) : ArenaSt β :=
  { board := g.getInit, curPlayer := 1, it := 0,
    history := [], blunderHistory := [], log := [] }

/-- Outcome of the inner polling loop of one turn (arena.py lines 64-87):
a move was applied (`moved`, with the remaining script), an illegal
AI move raised the fatal `ValueError` (`fatal`), or the script ran dry
while the loop kept polling (`stuck`). -/
inductive InnerOut (β : Type)
  | moved (st : ArenaSt β) (rest : List PAction)
  | fatal (st : ArenaSt β)
  | stuck (st : ArenaSt β)
deriving DecidableEq, Repr

/-- The arena state an inner-loop outcome carries. -/
def InnerOut.outSt : InnerOut β → ArenaSt β
  | .moved st _ => st
  | .fatal st => st
  | .stuck st => st

/-- The inner polling loop (arena.py lines 64-87).  `ai` records whether
an AI-move request was relayed this turn.  `None` polls again; an action
is applied through `getNextState`; on success the board and player are
updated, `P_VALIDMOVE` is sent and (for a non-AI move) the transition
recorded in the blunder history; on the `ValueError` of an illegal
action, an AI move raises fatally while a remote move draws
`P_INVALIDMOVE` and the loop re-polls the same turn. -/
def innerLoop (g : GameM β) (st : ArenaSt β) (ai : Bool) :
    List PAction → InnerOut β
  | [] => .stuck st
  | .noMove :: rest => innerLoop g st ai rest
  | .aiRequest :: rest => innerLoop g st true rest
  | .move a :: rest =>
      match g.getNextState st.board st.curPlayer a with
      | some (b2, p2) =>
          .moved
            { st with
              board := b2, curPlayer := p2,
              log := st.log ++ [(.P_VALIDMOVE, some (toPos st.curPlayer))],
              blunderHistory :=
                if ai then st.blunderHistory
                else st.blunderHistory ++ [(b2, p2, st.it, a)] } rest
      | none =>
          if ai then .fatal st
          else
            innerLoop g
              { st with
                log := st.log ++ [(.P_INVALIDMOVE, some (toPos st.curPlayer))] }
              ai rest

/-- Outcome of one body of the outer while-loop. -/
inductive OuterOut (β : Type)
  | nextTurn (st : ArenaSt β) (rest : List PAction)
  | fatalErr (st : ArenaSt β)
  | stuckOut (st : ArenaSt β)
deriving DecidableEq, Repr

/-- One body of the outer while-loop (arena.py lines 49-89): append the
current position to the history, run the inner polling loop with the
`ai` flag reset, and on an applied move advance `it` by one. -/
def outerBody (g : GameM β) (st : ArenaSt β) (script : List PAction) :
    OuterOut β :=
  let st1 := { st with history := st.history ++ [(st.board, st.curPlayer, st.it)] }
  match innerLoop g st1 false script with
  | .moved st2 rest => .nextTurn { st2 with it := st2.it + 1 } rest
  | .fatal st2 => .fatalErr st2
  | .stuck st2 => .stuckOut st2

/-- Result of a whole `play` call: natural termination, the fatal
AI-illegal-move `ValueError`, or fuel/script exhaustion. -/
inductive PlayOut (β : Type)
  | finished (st : ArenaSt β)
  | fatalErr (st : ArenaSt β)
  | outOfFuel (st : ArenaSt β)
deriving DecidableEq, Repr

/-- The arena state a play outcome carries. -/
def PlayOut.state : PlayOut β → ArenaSt β
  | .finished st => st
  | .fatalErr st => st
  | .outOfFuel st => st

/-- The outer while-loop of `Arena.play` plus the game-over epilogue
(arena.py lines 49-96): while the game is not terminal, run one outer
body; on natural termination append the final position and send
`P_GAMEOVER`. -/
def playLoop (g : GameM β) : Nat → List PAction → ArenaSt β → PlayOut β
  | 0, _, st => .outOfFuel st
  | fuel + 1, script, st =>
      if g.getGameEnded st.board st.curPlayer = 0 then
        match outerBody g st script with
        | .nextTurn st' rest => playLoop g fuel rest st'
        | .fatalErr st' => .fatalErr st'
        | .stuckOut st' => .outOfFuel st'
      else
        .finished
          { st with
            history := st.history ++ [(st.board, st.curPlayer, st.it)],
            log := st.log ++ [(.P_GAMEOVER, none)] }

/-- A whole `play` call on a freshly configured arena. -/
def play (g : GameM β) (fuel : Nat) (script : List PAction) : PlayOut β :=
  playLoop g fuel script (initArena g)

/-! ### Timeline cursor

`GameClient.handle_timeline` (game_client.py lines 336-351) relays
`timeline`/`step`/`unstep` to `Arena.timeline` and turns a `None` result
into a `P_INVALIDTIMELINE` response.  `Arena.timeline` itself is not
under src/, so the cursor is modelled from the spec. -/

/-- A timeline cursor over a history of length `histLen`, together with
the live game state it must not touch. -/
structure TimelineSt (γ : Type) where
  histLen : Nat
  index : Int
  live : γ
deriving DecidableEq, Repr

/-- Modelled from the spec: `Arena.timeline(step=True)` — the cursor
moves forward by one ply and fails at the bounds (index < 0 or
≥ history length) rather than wrapping (`Arena.timeline` is not under
src/; only its caller `handle_timeline` is). -/
def timeline_step (t : TimelineSt γ) : Option (TimelineSt γ) :=
  let i := t.index + 1
  if i < 0 ∨ (t.histLen : Int) ≤ i then none else some { t with index := i }

/-- Modelled from the spec: `Arena.timeline(unstep=True)` — the cursor
moves back by one ply with the same bounds check. -/
def timeline_unstep (t : TimelineSt γ) : Option (TimelineSt γ) :=
  let i := t.index - 1
  if i < 0 ∨ (t.histLen : Int) ≤ i then none else some { t with index := i }

/-- The `handle_timeline` glue (game_client.py lines 336-351): a `None`
result from the arena draws `P_INVALIDTIMELINE` and changes nothing,
otherwise `P_TIMELINE` is sent with the cursor's rendering. -/
def handle_timeline (t : TimelineSt γ) (r : Option (TimelineSt γ)) :
    List R_CODE × TimelineSt γ :=
  match r with
  | none => ([R_CODE.P_INVALIDTIMELINE], t)
  | some t' => ([R_CODE.P_TIMELINE], t')

/-- A history list whose entries carry consecutive ply indices starting
at `k`. -/
def plyIndexed : Nat → List (β × Int × Nat) → Prop
  | _, [] => True
  | k, e :: rest => e.2.2 = k ∧ plyIndexed (k + 1) rest

/-- A mid-game arena state used to instantiate the session-loop theorems:
player `-1` to move on a board whose cell 0 is already taken. -/
def cexSt : ArenaSt TBoard :=
  { board := [1, 0, 0, 0, 0, 0, 0, 0, 0], curPlayer := -1, it := 1,
    history := [], blunderHistory := [], log := [] }

/-! ## Helper lemmas -/

/-- The inner polling loop never touches the history list or the ply
counter, whatever its outcome. -/
lemma innerLoop_preserves (g : GameM β) :
    ∀ (script : List PAction) (st : ArenaSt β) (ai : Bool),
      ((innerLoop g st ai script).outSt).history = st.history ∧
        ((innerLoop g st ai script).outSt).it = st.it := by
  intro script
  induction script with
  | nil => intro st ai; simp [innerLoop, InnerOut.outSt]
  | cons a rest ih =>
      intro st ai
      cases a with
      | noMove => simpa [innerLoop] using ih st ai
      | aiRequest => simpa [innerLoop] using ih st true
      | move act =>
          cases h : g.getNextState st.board st.curPlayer act with
          | some bp => simp [innerLoop, h, InnerOut.outSt]
          | none =>
              by_cases hai : ai
              · simp [innerLoop, h, hai, InnerOut.outSt]
              · simpa [innerLoop, h, hai] using
                  ih { st with
                        log := st.log ++ [(.P_INVALIDMOVE, some (toPos st.curPlayer))] } ai

/-- Whatever `playLoop` does, it only ever appends to the history it was
started with. -/
lemma playLoop_history_extends (g : GameM β) :
    ∀ (fuel : Nat) (script : List PAction) (st : ArenaSt β),
      ∃ suf, ((playLoop g fuel script st).state).history = st.history ++ suf := by
  intro fuel
  induction fuel with
  | zero => intro script st; exact ⟨[], by simp [playLoop, PlayOut.state]⟩
  | succ n ih =>
      intro script st
      by_cases hend : g.getGameEnded st.board st.curPlayer = 0
      · have hpres := innerLoop_preserves g script
          { st with history := st.history ++ [(st.board, st.curPlayer, st.it)] } false
        cases hin : innerLoop g
            { st with history := st.history ++ [(st.board, st.curPlayer, st.it)] }
            false script with
        | moved st2 rest =>
            rw [hin] at hpres
            simp only [InnerOut.outSt] at hpres
            obtain ⟨suf, hsuf⟩ := ih rest { st2 with it := st2.it + 1 }
            refine ⟨(st.board, st.curPlayer, st.it) :: suf, ?_⟩
            simp only [playLoop, hend, if_pos, outerBody, hin]
            rw [hsuf]
            simp [hpres.1]
        | fatal st2 =>
            rw [hin] at hpres
            simp only [InnerOut.outSt] at hpres
            refine ⟨[(st.board, st.curPlayer, st.it)], ?_⟩
            simp only [playLoop, hend, if_pos, outerBody, hin, PlayOut.state]
            simp [hpres.1]
        | stuck st2 =>
            rw [hin] at hpres
            simp only [InnerOut.outSt] at hpres
            refine ⟨[(st.board, st.curPlayer, st.it)], ?_⟩
            simp only [playLoop, hend, if_pos, outerBody, hin, PlayOut.state]
            simp [hpres.1]
      · exact ⟨[(st.board, st.curPlayer, st.it)],
          by simp [playLoop, hend, PlayOut.state]⟩

lemma plyIndexed_append :
    ∀ (l : List (β × Int × Nat)) (k : Nat) (e : β × Int × Nat),
      plyIndexed k l → e.2.2 = k + l.length → plyIndexed k (l ++ [e]) := by
  intro l
  induction l with
  | nil => intro k e _ he; simpa [plyIndexed] using he
  | cons x rest ih =>
      intro k e hx he
      refine ⟨hx.1, ih (k + 1) e hx.2 ?_⟩
      simp at he
      omega

lemma plyIndexed_get :
    ∀ (l : List (β × Int × Nat)) (k i : Nat) (h : i < l.length),
      plyIndexed k l → (l.get ⟨i, h⟩).2.2 = k + i := by
  intro l
  induction l with
  | nil => intro k i h _; simp at h
  | cons x rest ih =>
      intro k i h hx
      cases i with
      | zero => simpa using hx.1
      | succ j =>
          have := ih (k + 1) j (by simpa using Nat.lt_of_succ_lt_succ h) hx.2
          simp only [List.get_cons_succ]
          omega

/-- The loop invariant behind `history[i].ply_index == i`: consecutive
indices so far and `it` equal to the history length. -/
lemma playLoop_inv (g : GameM β) :
    ∀ (fuel : Nat) (script : List PAction) (st : ArenaSt β),
      plyIndexed 0 st.history → st.it = st.history.length →
      plyIndexed 0 ((playLoop g fuel script st).state).history := by
  intro fuel
  induction fuel with
  | zero => intro script st hp _; simpa [playLoop, PlayOut.state] using hp
  | succ n ih =>
      intro script st hp hit
      have happ : plyIndexed 0 (st.history ++ [(st.board, st.curPlayer, st.it)]) :=
        plyIndexed_append st.history 0 (st.board, st.curPlayer, st.it) hp (by simpa using hit)
      by_cases hend : g.getGameEnded st.board st.curPlayer = 0
      · have hpres := innerLoop_preserves g script
          { st with history := st.history ++ [(st.board, st.curPlayer, st.it)] } false
        cases hin : innerLoop g
            { st with history := st.history ++ [(st.board, st.curPlayer, st.it)] }
            false script with
        | moved st2 rest =>
            rw [hin] at hpres
            simp only [InnerOut.outSt] at hpres
            have hp2 : plyIndexed 0 st2.history := by rw [hpres.1]; simpa using happ
            have hit2 : st2.it + 1 = st2.history.length := by
              rw [hpres.1, hpres.2]
              simp [hit]
            have := ih rest { st2 with it := st2.it + 1 } hp2 (by simpa using hit2)
            simpa [playLoop, hend, outerBody, hin] using this
        | fatal st2 =>
            rw [hin] at hpres
            simp only [InnerOut.outSt] at hpres
            have : plyIndexed 0 st2.history := by rw [hpres.1]; simpa using happ
            simpa [playLoop, hend, outerBody, hin, PlayOut.state] using this
        | stuck st2 =>
            rw [hin] at hpres
            simp only [InnerOut.outSt] at hpres
            have : plyIndexed 0 st2.history := by rw [hpres.1]; simpa using happ
            simpa [playLoop, hend, outerBody, hin, PlayOut.state] using this
      · simpa [playLoop, hend, PlayOut.state] using happ

/-- The code's gate agrees with the spec's section 4.3 table on the three
states that have a gate arm. -/
lemma adm_eq :
    ∀ (s : GAMESTATE) (k : CommandKey),
      s ≠ .EVALUATE → admissible s k = specAdmissible s k := by decide

/-! ## Claims -/

/-- C1 (counterexample): the claim that every command inadmissible per the
section 4.3 table is rejected fails in the `Evaluating` state — the
source's `match self.state` has no `EVALUATE` arm, so a `quit` received
while evaluating passes the gate and is dispatched, although the table
admits only `stop-evaluate` there. -/
theorem C1_evaluate_state_not_gated :
    (clientStep
        { state := .EVALUATE, pitExists := true, taskExists := true, taskDone := false }
        { key := .quit, num := .missing, move := .missing, configOk := true,
          gameAvailable := true, moveTerminal := false }).dispatched = true ∧
      specAdmissible .EVALUATE .quit = false := by decide

/-- C1 (amended): in the `Waiting`, `Running` and `Finished` states —
the states the dispatcher's gate covers — a command outside the
section 4.3 admissible set (which there coincides with the code's
lists) draws the state-conflict error for that state, is not
dispatched, and leaves the client untouched.  In the `Evaluating`
state no gating occurs: every command is dispatched. -/
theorem C1_gate_rejects_outside_table (c : Client) (m : Msg)
    (hne : c.state ≠ .EVALUATE) (hsp : specAdmissible c.state m.key = false) :
    (clientStep c m).dispatched = false ∧ (clientStep c m).client = c ∧
      (clientStep c m).responses = [conflictCode c.state] := by
  have ha : admissible c.state m.key = false := by
    rw [adm_eq c.state m.key hne]; exact hsp
  simp [clientStep, ha]

/-- Witness for C1: `make_move` in the `Waiting` state is rejected with
the state-conflict code and no state change. -/
theorem C1_gate_witness :
    (clientStep
        { state := .WAITING, pitExists := false, taskExists := false, taskDone := true }
        { key := .make_move, num := .missing, move := .intVal 4, configOk := true,
          gameAvailable := true, moveTerminal := false }).dispatched = false ∧
      (clientStep
        { state := .WAITING, pitExists := false, taskExists := false, taskDone := true }
        { key := .make_move, num := .missing, move := .intVal 4, configOk := true,
          gameAvailable := true, moveTerminal := false }).client =
        { state := .WAITING, pitExists := false, taskExists := false, taskDone := true } ∧
      (clientStep
        { state := .WAITING, pitExists := false, taskExists := false, taskDone := true }
        { key := .make_move, num := .missing, move := .intVal 4, configOk := true,
          gameAvailable := true, moveTerminal := false }).responses =
        [conflictCode .WAITING] :=
  C1_gate_rejects_outside_table _ _ (by decide) (by decide)

/-- C2: the protocol transitions of the section 4.3 table — a create or
new-game that passes all its checks moves the state to `Running`; a
dispatched surrender moves it to `Finished`; an evaluate that passes all
its checks moves it to `Evaluating`; a dispatched stop-evaluate moves it
to `Waiting`; and a `make_move` whose relayed move ends the game leaves
the protocol state `Finished` (the last transition's `Pit.set_move` side
is modelled from the spec, see `makeMoveNextState`). -/
theorem C2_protocol_transitions (c : Client) (m : Msg) :
    (m.key = .create →
        (c.pitExists && c.taskExists && !c.taskDone) = false →
        m.configOk = true → m.gameAvailable = true →
        (clientStep c m).dispatched = true →
        (clientStep c m).client.state = .RUNNING) ∧
    (m.key = .new_game → (clientStep c m).dispatched = true → c.taskDone = true →
        (clientStep c m).client.state = .RUNNING) ∧
    (m.key = .surrender → (clientStep c m).dispatched = true →
        (clientStep c m).client.state = .FINISHED) ∧
    (m.key = .evaluate →
        (c.pitExists && c.taskExists && !c.taskDone) = false →
        (∀ n : Int, m.num.toInt = some n → ¬(n = 1 ∨ n > 100)) →
        m.num.toInt ≠ none →
        m.configOk = true →
        (clientStep c m).dispatched = true →
        (clientStep c m).client.state = .EVALUATE) ∧
    (m.key = .stop_evaluate → (clientStep c m).dispatched = true →
        (clientStep c m).client.state = .WAITING) ∧
    (m.key = .make_move → m.moveTerminal = true →
        (clientStep c m).effects = [Effect.setMove] →
        (clientStep c m).client.state = .FINISHED) := by
  refine ⟨?_, ?_, ?_, ?_, ?_, ?_⟩
  · intro hkey hrun hcfg hgame hdisp
    by_cases hadm : admissible c.state m.key
    · rw [hkey] at hadm
      simp [clientStep, hadm, dispatch, hkey, hrun, hcfg, hgame]
    · simp [clientStep, hadm] at hdisp
  · intro hkey hdisp hdone
    by_cases hadm : admissible c.state m.key
    · rw [hkey] at hadm
      simp [clientStep, hadm, dispatch, hkey, hdone]
    · simp [clientStep, hadm] at hdisp
  · intro hkey hdisp
    by_cases hadm : admissible c.state m.key
    · rw [hkey] at hadm
      simp [clientStep, hadm, dispatch, hkey]
    · simp [clientStep, hadm] at hdisp
  · intro hkey hrun hnum hsome hcfg hdisp
    by_cases hadm : admissible c.state m.key
    · rw [hkey] at hadm
      cases hm : m.num with
      | missing => rw [hm] at hsome; simp [FieldVal.toInt] at hsome
      | strVal s =>
          cases hti : FieldVal.toInt (FieldVal.strVal s) with
          | none => rw [hm] at hsome; exact absurd hti hsome
          | some n =>
              have hn := hnum n (by rw [hm]; exact hti)
              simp [clientStep, hadm, dispatch, hkey, hm, hrun, hti, hn, hcfg]
      | intVal k =>
          cases hti : FieldVal.toInt (FieldVal.intVal k) with
          | none => rw [hm] at hsome; exact absurd hti hsome
          | some n =>
              have hn := hnum n (by rw [hm]; exact hti)
              simp [clientStep, hadm, dispatch, hkey, hm, hrun, hti, hn, hcfg]
    · simp [clientStep, hadm] at hdisp
  · intro hkey hdisp
    by_cases hadm : admissible c.state m.key
    · rw [hkey] at hadm
      simp [clientStep, hadm, dispatch, hkey]
    · simp [clientStep, hadm] at hdisp
  · intro hkey hterm heff
    by_cases hadm : admissible c.state m.key
    · rw [hkey] at hadm
      cases hm : m.move with
      | missing => simp [clientStep, hadm, dispatch, hkey, hm, armReject] at heff
      | strVal s =>
          cases hp : parse_input (.strInput s) with
          | ret v =>
              cases v with
              | none => simp [clientStep, hadm, dispatch, hkey, hm, hp, armReject] at heff
              | some w =>
                  simp [clientStep, hadm, dispatch, hkey, hm, hp, makeMoveNextState, hterm]
          | raises => simp [clientStep, hadm, dispatch, hkey, hm, hp] at heff
      | intVal k =>
          cases hp : parse_input (.intInput k) with
          | ret v =>
              cases v with
              | none => simp [clientStep, hadm, dispatch, hkey, hm, hp, armReject] at heff
              | some w =>
                  simp [clientStep, hadm, dispatch, hkey, hm, hp, makeMoveNextState, hterm]
          | raises => simp [clientStep, hadm, dispatch, hkey, hm, hp] at heff
    · simp [clientStep, hadm] at heff
/-- Witness for C2: from a fresh `Waiting` client a valid create lands in
`Running`, and a stop-evaluate dispatched while `Evaluating` lands in
`Waiting`. -/
theorem C2_transitions_witness :
    (clientStep
        { state := .WAITING, pitExists := false, taskExists := false, taskDone := true }
        { key := .create, num := .missing, move := .missing, configOk := true,
          gameAvailable := true, moveTerminal := false }).client.state = .RUNNING ∧
      (clientStep
        { state := .EVALUATE, pitExists := true, taskExists := true, taskDone := false }
        { key := .stop_evaluate, num := .missing, move := .missing, configOk := true,
          gameAvailable := true, moveTerminal := false }).client.state = .WAITING :=
  ⟨(C2_protocol_transitions
      { state := .WAITING, pitExists := false, taskExists := false, taskDone := true }
      { key := .create, num := .missing, move := .missing, configOk := true,
        gameAvailable := true, moveTerminal := false }).1 rfl (by decide) rfl rfl (by decide),
   (C2_protocol_transitions
      { state := .EVALUATE, pitExists := true, taskExists := true, taskDone := false }
      { key := .stop_evaluate, num := .missing, move := .missing, configOk := true,
        gameAvailable := true, moveTerminal := false }).2.2.2.2.1 rfl (by decide)⟩

/-- C3: how `Arena.play` handles an illegal action (arena.py lines
77-87).  A remote (non-AI) illegal move only logs `P_INVALIDMOVE` to its
owner and re-polls the same turn, leaving board, player, ply counter,
history and blunder history untouched; an AI illegal move raises the
fatal `ValueError` at once, without consuming the rest of the script; and
a fatal inner-loop outcome aborts the whole play loop rather than being
retried. -/
theorem C3_illegal_move_paths (g : GameM β) (st : ArenaSt β) (a : Nat)
    (rest : List PAction)
    (hill : g.getNextState st.board st.curPlayer a = none) :
    (innerLoop g st false (.move a :: rest) =
        innerLoop g
          { st with log := st.log ++ [(.P_INVALIDMOVE, some (toPos st.curPlayer))] }
          false rest) ∧
      innerLoop g st true (.move a :: rest) = .fatal st ∧
      (∀ (fuel : Nat) (script : List PAction) (st2 : ArenaSt β),
         g.getGameEnded st.board st.curPlayer = 0 →
         innerLoop g
             { st with history := st.history ++ [(st.board, st.curPlayer, st.it)] }
             false script = .fatal st2 →
         playLoop g (fuel + 1) script st = .fatalErr st2) := by
  refine ⟨by simp [innerLoop, hill], by simp [innerLoop, hill], ?_⟩
  intro fuel script st2 hend hfat
  simp [playLoop, hend, outerBody, hfat]

/-- Witness for C3: with cell 0 already taken, an AI move onto it is an
immediate fatal outcome. -/
theorem C3_illegal_move_witness :
    innerLoop ticTacToeGame cexSt true [PAction.move 0] = InnerOut.fatal cexSt :=
  (C3_illegal_move_paths ticTacToeGame cexSt 0 [] (by decide)).2.1

/-- C4: an accepted move strictly increments the ply counter by exactly 1
and appends exactly one history entry per turn, while the inner polling
loop — which is where illegal moves are rejected — never changes the ply
counter or the history at all. -/
theorem C4_ply_increment (g : GameM β) (st : ArenaSt β) (script : List PAction) :
    (∀ (st' : ArenaSt β) (rest : List PAction),
        outerBody g st script = .nextTurn st' rest →
        st'.it = st.it + 1 ∧ st'.history.length = st.history.length + 1) ∧
      (∀ (ai : Bool) (st2 : ArenaSt β) (rest : List PAction),
        innerLoop g st ai script = .moved st2 rest →
        st2.it = st.it ∧ st2.history = st.history) := by
  constructor
  · intro st' rest h
    simp only [outerBody] at h
    have hpres := innerLoop_preserves g script
      { st with history := st.history ++ [(st.board, st.curPlayer, st.it)] } false
    cases hin : innerLoop g
        { st with history := st.history ++ [(st.board, st.curPlayer, st.it)] }
        false script with
    | moved st2 r2 =>
        rw [hin] at h hpres
        simp only [InnerOut.outSt] at hpres
        cases h
        have h2 : st2.it = st.it := hpres.2
        have h1 : st2.history = st.history ++ [(st.board, st.curPlayer, st.it)] :=
          hpres.1
        constructor
        · simp [h2]
        · simp [h1]
    | fatal st2 => rw [hin] at h; simp at h
    | stuck st2 => rw [hin] at h; simp at h
  · intro ai st2 rest h
    have hpres := innerLoop_preserves g script st ai
    rw [h] at hpres
    simpa [InnerOut.outSt] using ⟨hpres.2, hpres.1⟩

/-- Witness for C4: one outer-loop body from the fresh tic-tac-toe arena
with the accepted move 4 advances the ply counter from 0 to 1 and the
history from 0 to 1 entries. -/
theorem C4_ply_witness :
    ∃ (st' : ArenaSt TBoard) (rest : List PAction),
      outerBody ticTacToeGame (initArena ticTacToeGame) [PAction.move 4] =
        OuterOut.nextTurn st' rest ∧
      st'.it = (initArena ticTacToeGame).it + 1 ∧
      st'.history.length = (initArena ticTacToeGame).history.length + 1 :=
  ⟨_, _, rfl,
    (C4_ply_increment ticTacToeGame (initArena ticTacToeGame) [PAction.move 4]).1 _ _ rfl⟩

/-- C5 (counterexample): the claim that every `num` outside `2 ≤ num ≤
100` is rejected fails — the source's check is `num == 1 or num > 100`
(with the matching message "1 or more than 100 games not supported"), so
`num = 0`, which is below 2, passes the check and the evaluation is
initialized. -/
theorem C5_num_zero_accepted :
    (clientStep
        { state := .WAITING, pitExists := false, taskExists := false, taskDone := true }
        { key := .evaluate, num := .intVal 0, move := .missing, configOk := true,
          gameAvailable := true, moveTerminal := false }).client.state = .EVALUATE ∧
      (clientStep
        { state := .WAITING, pitExists := false, taskExists := false, taskDone := true }
        { key := .evaluate, num := .intVal 0, move := .missing, configOk := true,
          gameAvailable := true, moveTerminal := false }).effects =
        [Effect.initGame 0] ∧
      ¬(2 ≤ (0 : Int)) := by decide

/-- C5 (amended): after integer conversion the evaluate arm rejects
exactly `num = 1` or `num > 100` with the invalid-evaluation error and no
game initialization and no state change; every other integer — including
`num = 0` and negative values — passes the range check, and with a valid
configuration the evaluation is initialized. -/
theorem C5_evaluate_num_check (c : Client) (m : Msg) (n : Int)
    (hkey : m.key = .evaluate)
    (hadm : admissible c.state .evaluate = true)
    (hrun : (c.pitExists && c.taskExists && !c.taskDone) = false)
    (hnum : m.num.toInt = some n) :
    ((n = 1 ∨ n > 100) → clientStep c m = armReject c .P_INVALIDEVALUATION) ∧
      (¬(n = 1 ∨ n > 100) → m.configOk = true →
        (clientStep c m).client.state = .EVALUATE ∧
          (clientStep c m).effects = [Effect.initGame n]) := by
  cases hm : m.num with
  | missing => rw [hm] at hnum; simp [FieldVal.toInt] at hnum
  | strVal s =>
      rw [hm] at hnum
      constructor
      · intro hrange
        simp [clientStep, hkey, hadm, dispatch, hm, hrun, hnum, hrange, armReject]
      · intro hrange hcfg
        simp [clientStep, hkey, hadm, dispatch, hm, hrun, hnum, hrange, hcfg]
  | intVal k =>
      rw [hm] at hnum
      constructor
      · intro hrange
        simp [clientStep, hkey, hadm, dispatch, hm, hrun, hnum, hrange, armReject]
      · intro hrange hcfg
        simp [clientStep, hkey, hadm, dispatch, hm, hrun, hnum, hrange, hcfg]

/-- Witness for C5: `num = 101` is rejected, `num = 50` is accepted. -/
theorem C5_evaluate_num_witness :
    clientStep
        { state := .WAITING, pitExists := false, taskExists := false, taskDone := true }
        { key := .evaluate, num := .intVal 101, move := .missing, configOk := true,
          gameAvailable := true, moveTerminal := false } =
      armReject
        { state := .WAITING, pitExists := false, taskExists := false, taskDone := true }
        .P_INVALIDEVALUATION ∧
      (clientStep
        { state := .WAITING, pitExists := false, taskExists := false, taskDone := true }
        { key := .evaluate, num := .intVal 50, move := .missing, configOk := true,
          gameAvailable := true, moveTerminal := false }).client.state = .EVALUATE ∧
      (clientStep
        { state := .WAITING, pitExists := false, taskExists := false, taskDone := true }
        { key := .evaluate, num := .intVal 50, move := .missing, configOk := true,
          gameAvailable := true, moveTerminal := false }).effects =
        [Effect.initGame 50] :=
  ⟨(C5_evaluate_num_check
      { state := .WAITING, pitExists := false, taskExists := false, taskDone := true }
      { key := .evaluate, num := .intVal 101, move := .missing, configOk := true,
        gameAvailable := true, moveTerminal := false } 101
      rfl (by decide) (by decide) rfl).1 (by decide),
   (C5_evaluate_num_check
      { state := .WAITING, pitExists := false, taskExists := false, taskDone := true }
      { key := .evaluate, num := .intVal 50, move := .missing, configOk := true,
        gameAvailable := true, moveTerminal := false } 50
      rfl (by decide) (by decide) rfl).2 (by decide) rfl⟩

/-- C6: every history a run of the session loop produces carries
consecutive ply indices (`history[i].ply_index == i` from a fresh
arena), and the loop only ever appends — whatever state it is started
from, the starting history is a prefix of the final one. -/
theorem C6_history_indexed_append_only (g : GameM β) (fuel : Nat)
    (script : List PAction) :
    (∀ st : ArenaSt β,
        ∃ suf, ((playLoop g fuel script st).state).history = st.history ++ suf) ∧
      (∀ (i : Nat) (h : i < ((play g fuel script).state).history.length),
        (((play g fuel script).state).history.get ⟨i, h⟩).2.2 = i) := by
  constructor
  · intro st
    exact playLoop_history_extends g fuel script st
  · intro i h
    have hinv : plyIndexed 0 ((play g fuel script).state).history := by
      have := playLoop_inv g fuel script (initArena g)
        (by simp [initArena, plyIndexed]) (by simp [initArena])
      simpa [play] using this
    simpa using plyIndexed_get _ 0 i h hinv

/-- Witness for C6: a short tic-tac-toe run extends the empty history and
its entry 1 carries ply index 1. -/
theorem C6_history_witness :
    (∃ suf,
        ((playLoop ticTacToeGame 3 [PAction.move 0]
            (initArena ticTacToeGame)).state).history =
          (initArena ticTacToeGame).history ++ suf) ∧
      (((play ticTacToeGame 3 [PAction.move 0]).state).history.get
          ⟨1, by decide⟩).2.2 = 1 :=
  ⟨(C6_history_indexed_append_only ticTacToeGame 3 [PAction.move 0]).1 _,
   (C6_history_indexed_append_only ticTacToeGame 3 [PAction.move 0]).2 1 (by decide)⟩

/-- C7 (counterexample): the claim that an `undo_move` arriving while the
session task is still active is refused with a conflict error fails — the
source (game_client.py lines 207-209) stops the play itself
(`await self.pit.stop_play(p_pos)`) and then performs the undo. -/
theorem C7_undo_not_refused :
    (clientStep
        { state := .RUNNING, pitExists := true, taskExists := true, taskDone := false }
        { key := .undo_move, num := .intVal 1, move := .missing, configOk := true,
          gameAvailable := true, moveTerminal := false }).effects =
        [Effect.stopPlay, Effect.arenaUndo 1] ∧
      (clientStep
        { state := .RUNNING, pitExists := true, taskExists := true, taskDone := false }
        { key := .undo_move, num := .intVal 1, move := .missing, configOk := true,
          gameAvailable := true, moveTerminal := false }).responses =
        [R_CODE.P_UNDORESULT] := by decide

/-- C7 (amended): the `num` validation holds as claimed — a missing,
non-integer or non-positive `num` is rejected with an error response and
no mutation — but an `undo_move` during an active session is not refused:
the client stops the session itself (the `stopPlay` effect) and then
performs the undo. -/
theorem C7_undo_validation (c : Client) (m : Msg)
    (hkey : m.key = .undo_move) (hadm : admissible c.state .undo_move = true) :
    (m.num = .missing → clientStep c m = armReject c .P_NOUNDO) ∧
      (m.num.toInt = none → m.num ≠ .missing →
        clientStep c m = armReject c .P_INVALIDUNDO) ∧
      (∀ n : Int, m.num.toInt = some n → n ≤ 0 →
        clientStep c m = armReject c .P_INVALIDUNDO) ∧
      (∀ n : Int, m.num.toInt = some n → 0 < n →
        (clientStep c m).effects =
          (if !c.taskDone then [Effect.stopPlay] else []) ++ [Effect.arenaUndo n] ∧
          (clientStep c m).responses = [R_CODE.P_UNDORESULT]) := by
  refine ⟨?_, ?_, ?_, ?_⟩
  · intro hm
    simp [clientStep, hkey, hadm, dispatch, hm, armReject]
  · intro hni hm
    cases hm2 : m.num with
    | missing => exact absurd hm2 hm
    | strVal s =>
        rw [hm2] at hni
        simp [clientStep, hkey, hadm, dispatch, hm2, hni, armReject]
    | intVal k => rw [hm2] at hni; simp [FieldVal.toInt] at hni
  · intro n hn hle
    cases hm2 : m.num with
    | missing => rw [hm2] at hn; simp [FieldVal.toInt] at hn
    | strVal s =>
        rw [hm2] at hn
        simp [clientStep, hkey, hadm, dispatch, hm2, hn, hle, armReject]
    | intVal k =>
        rw [hm2] at hn
        simp [clientStep, hkey, hadm, dispatch, hm2, hn, hle, armReject]
  · intro n hn hpos
    have hle : ¬(n ≤ 0) := by omega
    cases hm2 : m.num with
    | missing => rw [hm2] at hn; simp [FieldVal.toInt] at hn
    | strVal s =>
        rw [hm2] at hn
        simp [clientStep, hkey, hadm, dispatch, hm2, hn, hle]
    | intVal k =>
        rw [hm2] at hn
        simp [clientStep, hkey, hadm, dispatch, hm2, hn, hle]

/-- Witness for C7: with the session task already stopped, `undo_move`
with `num = 0` is rejected and with `num = 2` performs the undo alone. -/
theorem C7_undo_witness :
    clientStep
        { state := .RUNNING, pitExists := true, taskExists := true, taskDone := true }
        { key := .undo_move, num := .intVal 0, move := .missing, configOk := true,
          gameAvailable := true, moveTerminal := false } =
      armReject
        { state := .RUNNING, pitExists := true, taskExists := true, taskDone := true }
        .P_INVALIDUNDO ∧
      (clientStep
        { state := .RUNNING, pitExists := true, taskExists := true, taskDone := true }
        { key := .undo_move, num := .intVal 2, move := .missing, configOk := true,
          gameAvailable := true, moveTerminal := false }).effects =
        (if !(true : Bool) then [Effect.stopPlay] else []) ++ [Effect.arenaUndo 2] ∧
      (clientStep
        { state := .RUNNING, pitExists := true, taskExists := true, taskDone := true }
        { key := .undo_move, num := .intVal 2, move := .missing, configOk := true,
          gameAvailable := true, moveTerminal := false }).responses =
        [R_CODE.P_UNDORESULT] :=
  ⟨(C7_undo_validation _ _ rfl (by decide)).2.2.1 0 rfl (by decide),
   (C7_undo_validation _ _ rfl (by decide)).2.2.2 2 rfl (by decide)⟩

/-- C8: stepping the timeline cursor and then unstepping it from any
valid position returns exactly the original cursor (the live state field
untouched), and both step and unstep fail at the bounds with the
invalid-timeline error instead of wrapping around. -/
theorem C8_timeline_roundtrip {γ : Type} (t t' : TimelineSt γ) :
    (0 ≤ t.index → t.index < (t.histLen : Int) →
        timeline_step t = some t' →
        timeline_unstep t' = some t ∧ t'.live = t.live ∧ t'.index = t.index + 1) ∧
      ((t.histLen : Int) ≤ t.index + 1 →
        timeline_step t = none ∧
          handle_timeline t (timeline_step t) = ([R_CODE.P_INVALIDTIMELINE], t)) ∧
      (t.index - 1 < 0 →
        timeline_unstep t = none ∧
          handle_timeline t (timeline_unstep t) = ([R_CODE.P_INVALIDTIMELINE], t)) := by
  refine ⟨?_, ?_, ?_⟩
  · intro h0 hlt hstep
    have hlt2 : t.index + 1 < (t.histLen : Int) := by
      by_contra hge
      have hc : t.index + 1 < 0 ∨ (t.histLen : Int) ≤ t.index + 1 := Or.inr (by omega)
      have hnone : timeline_step t = none := by
        show (if t.index + 1 < 0 ∨ (t.histLen : Int) ≤ t.index + 1 then
            (none : Option (TimelineSt γ))
          else some { histLen := t.histLen, index := t.index + 1, live := t.live }) = none
        rw [if_pos hc]
      rw [hnone] at hstep
      exact Option.noConfusion hstep
    have hc2 : ¬(t.index + 1 < 0 ∨ (t.histLen : Int) ≤ t.index + 1) := by omega
    have hval : timeline_step t = some ({ t with index := t.index + 1 }) := by
      show (if t.index + 1 < 0 ∨ (t.histLen : Int) ≤ t.index + 1 then
          (none : Option (TimelineSt γ))
        else some { histLen := t.histLen, index := t.index + 1, live := t.live }) =
          some { t with index := t.index + 1 }
      rw [if_neg hc2]
    rw [hval] at hstep
    obtain rfl : ({ t with index := t.index + 1 } : TimelineSt γ) = t' :=
      Option.some.inj hstep
    refine ⟨?_, rfl, rfl⟩
    show (if t.index + 1 - 1 < 0 ∨ (t.histLen : Int) ≤ t.index + 1 - 1 then
        (none : Option (TimelineSt γ))
      else some { histLen := t.histLen, index := t.index + 1 - 1, live := t.live }) =
        some t
    rw [if_neg (by omega : ¬(t.index + 1 - 1 < 0 ∨ (t.histLen : Int) ≤ t.index + 1 - 1))]
    have e : t.index + 1 - 1 = t.index := by omega
    rw [e]
  · intro hge
    have hc : t.index + 1 < 0 ∨ (t.histLen : Int) ≤ t.index + 1 := Or.inr hge
    have hnone : timeline_step t = none := by
      show (if t.index + 1 < 0 ∨ (t.histLen : Int) ≤ t.index + 1 then
          (none : Option (TimelineSt γ))
        else some { histLen := t.histLen, index := t.index + 1, live := t.live }) = none
      rw [if_pos hc]
    exact ⟨hnone, by rw [hnone]; rfl⟩
  · intro hlt
    have hc : t.index - 1 < 0 ∨ (t.histLen : Int) ≤ t.index - 1 := Or.inl hlt
    have hnone : timeline_unstep t = none := by
      show (if t.index - 1 < 0 ∨ (t.histLen : Int) ≤ t.index - 1 then
          (none : Option (TimelineSt γ))
        else some { histLen := t.histLen, index := t.index - 1, live := t.live }) = none
      rw [if_pos hc]
    exact ⟨hnone, by rw [hnone]; rfl⟩

/-- Witness for C8: from cursor 1 over a history of length 3, step
reaches 2 and unstep returns exactly to the original cursor. -/
theorem C8_timeline_witness :
    timeline_unstep ({ histLen := 3, index := 2, live := (7 : Int) } : TimelineSt Int) =
        some { histLen := 3, index := 1, live := (7 : Int) } ∧
      ({ histLen := 3, index := 2, live := (7 : Int) } : TimelineSt Int).live =
        ({ histLen := 3, index := 1, live := (7 : Int) } : TimelineSt Int).live ∧
      ({ histLen := 3, index := 2, live := (7 : Int) } : TimelineSt Int).index =
        ({ histLen := 3, index := 1, live := (7 : Int) } : TimelineSt Int).index + 1 :=
  (C8_timeline_roundtrip
      ({ histLen := 3, index := 1, live := (7 : Int) } : TimelineSt Int)
      ({ histLen := 3, index := 2, live := (7 : Int) } : TimelineSt Int)).1
    (by decide) (by decide) (by decide)

/-- C9: on a board where player `+1` has three in a row (and `-1` does
not), `getGameEnded` is strictly positive for `+1` and strictly negative
for `-1`; on a full board with no winner it is the designated small
non-zero draw value `1e-4`, never `0`, which is reserved for a game that
has not ended. -/
theorem C9_getGameEnded_outcomes (b : TBoard) :
    (is_win b 1 = true → is_win b (-1) = false →
        0 < getGameEnded b 1 ∧ getGameEnded b (-1) < 0) ∧
      (∀ p : Int, is_win b p = false → is_win b (-p) = false →
        has_legal_moves b = false →
        getGameEnded b p = 1 / 10000 ∧ getGameEnded b p ≠ 0) := by
  constructor
  · intro h1 h2
    constructor
    · norm_num [getGameEnded, h1]
    · norm_num [getGameEnded, h1, h2, neg_neg]
  · intro p hp hop hleg
    constructor
    · norm_num [getGameEnded, hp, hop, hleg]
    · norm_num [getGameEnded, hp, hop, hleg]

/-- Witness for C9: the board `X X X / O O . / . . .` is a win for `+1`
and a loss for `-1`; the full drawn board `X X O / O O X / X O X` yields
exactly `1e-4`. -/
theorem C9_getGameEnded_witness :
    (0 < getGameEnded [1, 1, 1, -1, -1, 0, 0, 0, 0] 1 ∧
        getGameEnded [1, 1, 1, -1, -1, 0, 0, 0, 0] (-1) < 0) ∧
      (getGameEnded [1, 1, -1, -1, -1, 1, 1, -1, 1] 1 = 1 / 10000 ∧
        getGameEnded [1, 1, -1, -1, -1, 1, 1, -1, 1] 1 ≠ 0) :=
  ⟨(C9_getGameEnded_outcomes [1, 1, 1, -1, -1, 0, 0, 0, 0]).1 (by decide) (by decide),
   (C9_getGameEnded_outcomes [1, 1, -1, -1, -1, 1, 1, -1, 1]).2 1
      (by decide) (by decide) (by decide)⟩

/-- C10 (counterexample): the claim that `parse_input` never raises fails
— on the parenthesised string `"(1,])"` (which starts with `(` and ends
with `)`), `ast.literal_eval` raises `SyntaxError` (recorded in
`literalEvalProbes`), which the `except ValueError` handler does not
catch, so the exception escapes. -/
theorem C10_parse_input_raises :
    parse_input (.strInput "(1,])") = .raises := by decide

/-- C10 (amended): whatever the external `literal_eval` does,
`parse_input` returns an `int`, a `tuple` or `None` on every input
except exactly the strings that start with `(` and end with `)` on which
`literal_eval` raises `SyntaxError` — only `ValueError` is caught, so
there the exception escapes (as it does on `"(1,])"`).  The claim's own
example `"(1,]"` yields `None` for every `literal_eval` behaviour,
because it does not end with `)` and therefore takes the `int()` branch,
whose `ValueError` is caught. -/
theorem C10_parse_input_characterised :
    (∀ (ev : String → EvalOut) (inp : PInput),
        parse_input_gen ev inp = .raises ↔
          ∃ s, inp = .strInput s ∧ (startsWithParen s && endsWithParen s) = true ∧
            ev s = .synErr) ∧
      (∀ ev : String → EvalOut,
        parse_input_gen ev (.strInput "(1,]") = .ret none) := by
  constructor
  · intro ev inp
    cases inp with
    | noneInput => simp [parse_input_gen]
    | intInput n => simp [parse_input_gen]
    | strInput s =>
        by_cases hs : (startsWithParen s && endsWithParen s) = true
        · have hs' := hs
          rw [Bool.and_eq_true] at hs'
          cases hl : ev s with
          | ok v => simp [parse_input_gen, hs, hl]
          | valErr => simp [parse_input_gen, hs, hl]
          | synErr => simp [parse_input_gen, hs, hl, hs'.1, hs'.2]
        · constructor
          · intro hraise
            rw [show parse_input_gen ev (.strInput s) =
                (if (startsWithParen s && endsWithParen s) = true then
                  match ev s with
                  | .ok v => ParseOut.ret (some v)
                  | .valErr => ParseOut.ret none
                  | .synErr => ParseOut.raises
                else ParseOut.ret ((pyIntOfString s).map PyVal.int)) from rfl] at hraise
            rw [if_neg hs] at hraise
            exact ParseOut.noConfusion hraise
          · rintro ⟨s', hEq, hstart, hlit⟩
            cases hEq
            exact absurd hstart hs
  · intro ev
    rfl

/-- Witness for C10: the amended theorem applied at the recorded
`literal_eval` outcome and the concrete string `"(1,])"`. -/
theorem C10_parse_input_witness :
    ∃ s, PInput.strInput "(1,])" = PInput.strInput s ∧
      (startsWithParen s && endsWithParen s) = true ∧
      literalEvalProbes s = EvalOut.synErr :=
  (C10_parse_input_characterised.1 literalEvalProbes (PInput.strInput "(1,])")).mp
    (by decide)

end KIM
